import Mathlib

/-!
Verification of the FastAPI backend in `main.py` (contact form, mock checkout,
analytics tracking, store diagnostics).

The embedding is shallow and executable:

* Python `datetime` values are modeled as abstract instants (`Nat`): the handlers
  only ever read a clock and store/print the reading, so each distinct clock read
  becomes an explicit parameter (`ts` for `int(datetime.now().timestamp())`,
  `now` for `datetime.now(timezone.utc)`).
* The optional store adapter (`from database import db, create_document`, which
  falls back to `None` on import failure) is modeled by `Store`:
  `none` means `create_document is None`; `some outcome` means the adapter is
  configured and its next write yields `outcome` (`.ok id` for a created id,
  `.error e` for a raised exception whose `str` is `e`).
* Each handler returns its JSON response together with the list of
  `create_document(collection, record)` calls it performed, so "no store
  interaction" is a statement about the second component.
* Pydantic request validation (FastAPI rejects invalid bodies with a 422 before
  the handler runs) is embedded as an explicit `validate_*` pass producing the
  list of offending field names; `EmailStr` delegates to an external validator,
  so the contact pipeline is parametrized by an email predicate `emailOk`.
* `test_database` is a total Lean function into `TestResponse`: the source
  handler catches every exception it can encounter (the two probe points, `db.name`
  access and `list_collection_names()`, are modeled as `Except`-valued fields of
  `DB`), so "never raises" is witnessed by the embedding needing no error codomain.
-/

/-- Abstract instant standing for a `datetime` value (one clock read). -/
abbrev Instant := Nat

/-- Outcome of one `create_document(collection, doc)` call: the created id
(`.ok`) or the message of the raised exception (`.error`). -/
abbrev StoreOutcome := Except String String

/-- The optional store adapter. `none`: the `database` import failed and
`create_document` is `None` (the `if create_document:` guard is false).
`some outcome`: the adapter is configured and a write would yield `outcome`. -/
abbrev Store := Option StoreOutcome

/-- Optional JSON field of a request body: absent from the body, explicit
`null`, or present with a value. Pydantic applies a field default only when the
field is absent. -/
inductive JsonOpt (α : Type) where
  | absent : JsonOpt α
  | null : JsonOpt α
  | val (a : α) : JsonOpt α
deriving DecidableEq, Repr

/-- JSON object with unconstrained contents (Python `Dict[str, Any]`), modeled
as an association list of string keys to string-rendered values; the handlers
never inspect these maps, they only pass them through. -/
abbrev JsonObject := List (String × String)

/-! ## Request schemas (`ContactPayload`, `CheckoutPayload`, `AnalyticsEvent`) -/

/-- Schema `ContactPayload`: `name` (2–120 chars), `email` (`EmailStr`),
`message` (4–4000 chars). Fields hold the raw submitted strings; validation is
the separate `validate_contact` pass below, as in FastAPI. -/
structure ContactPayload where
  name : String
  email : String
  message : String
deriving DecidableEq, Repr

/-- Raw body of a checkout request. `courseId` is the submitted string; `plan`
is an optional field (`Optional[str] = Field(default="standard")`), so absent /
null / value must be distinguished before the default is applied. -/
structure RawCheckout where
  courseId : String
  plan : JsonOpt String
deriving DecidableEq, Repr

/-- Schema `CheckoutPayload` after pydantic parsing: `courseId` (min length 1),
`plan : Optional[str]` with default `"standard"`. -/
structure CheckoutPayload where
  courseId : String
  plan : Option String
deriving DecidableEq, Repr

/-- Schema `AnalyticsEvent`: `event` (2–64 chars), optional `properties` and
`user` maps. -/
structure AnalyticsEvent where
  event : String
  properties : Option JsonObject
  user : Option JsonObject
deriving DecidableEq, Repr

/-- Pydantic parsing of the checkout body: the `plan` default `"standard"` is
applied only when the field is absent; an explicit `null` stays `None`. -/
def parse_checkout (raw : RawCheckout) : CheckoutPayload :=
  { courseId := raw.courseId,
    plan :=
      match raw.plan with
      | .absent => some "standard"
      | .null => none
      | .val s => some s }

/-- Field-level validation errors for a contact body, per the `Field`
constraints on `ContactPayload` (`name` 2–120, `email` via the external
`EmailStr` validator `emailOk`, `message` 4–4000). Returns the offending field
names; the body is valid iff the list is empty. -/
def validate_contact (emailOk : String → Bool) (p : ContactPayload) : List String :=
  (if p.name.length < 2 ∨ 120 < p.name.length then ["name"] else []) ++
  (if emailOk p.email then [] else ["email"]) ++
  (if p.message.length < 4 ∨ 4000 < p.message.length then ["message"] else [])

/-- Field-level validation errors for a checkout body (`courseId` min length 1;
`plan` is unconstrained). -/
def validate_checkout (raw : RawCheckout) : List String :=
  if raw.courseId.length < 1 then ["courseId"] else []

/-- Field-level validation errors for an analytics body (`event` 2–64 chars;
`properties` and `user` are unconstrained optional objects). -/
def validate_analytics (ev : AnalyticsEvent) : List String :=
  if ev.event.length < 2 ∨ 64 < ev.event.length then ["event"] else []

/-! ## Response shapes -/

/-- Body of a contact response: `{"ok": True, "id": _id}` when the write
succeeded, `{"ok": True}` (no `id` key, here `id := none`) when no store is
configured. -/
structure ContactBody where
  ok : Bool
  id : Option String
deriving DecidableEq, Repr

/-- Body of a checkout response: `{"ok": True, "sessionId": ..., "url": ...}`. -/
structure CheckoutBody where
  ok : Bool
  sessionId : String
  url : String
deriving DecidableEq, Repr

/-- Body of an analytics response: exactly `{"ok": True}`. -/
structure AckBody where
  ok : Bool
deriving DecidableEq, Repr

/-- HTTP-level result of a request: a 200 with a JSON body, a 422 from FastAPI
validation carrying the offending field names, or a raised `HTTPException`
with a status code and detail string. -/
inductive ApiResult (α : Type) where
  | ok (body : α)
  | unprocessable (fieldErrors : List String)
  | httpError (status : Nat) (detail : String)
deriving DecidableEq, Repr

/-! ## Records persisted to the store -/

/-- Document built by `submit_contact`: the payload fields plus the
`"_type": "contact"` tag and the UTC `received_at` timestamp. -/
structure ContactDoc where
  name : String
  email : String
  message : String
  _type : String
  received_at : Instant
deriving DecidableEq, Repr

/-- Record built by `create_checkout`. -/
structure CheckoutRecord where
  _type : String
  courseId : String
  plan : Option String
  session_id : String
  session_url : String
  created_at : Instant
deriving DecidableEq, Repr

/-- Record built by `track_event`: the event fields plus the
`"_type": "analytics"` tag and the UTC `received_at` timestamp. -/
structure AnalyticsRecord where
  event : String
  properties : Option JsonObject
  user : Option JsonObject
  _type : String
  received_at : Instant
deriving DecidableEq, Repr

/-- The `doc` dict built by `submit_contact` before the store write. -/
def contactDoc (payload : ContactPayload) (now : Instant) : ContactDoc :=
  { name := payload.name, email := payload.email, message := payload.message,
    _type := "contact", received_at := now }

/-- The `record` dict built by `create_checkout` from the session id, session
url and clock reads. -/
def checkoutRecord (payload : CheckoutPayload) (session_id session_url : String)
    (now : Instant) : CheckoutRecord :=
  { _type := "checkout", courseId := payload.courseId, plan := payload.plan,
    session_id := session_id, session_url := session_url, created_at := now }

/-- The `record` dict built by `track_event` before the store write. -/
def analyticsRecord (ev : AnalyticsEvent) (now : Instant) : AnalyticsRecord :=
  { event := ev.event, properties := ev.properties, user := ev.user,
    _type := "analytics", received_at := now }

/-! ## Handlers -/

/-- Handler `POST /api/contact` (`submit_contact`), on an already-validated
payload. Builds `doc`; if `create_document` is configured, writes and returns
`{"ok": True, "id": _id}`, or re-raises a write failure as
`HTTPException(500, "Failed to save contact: " + str(e))`; with no store it
returns `{"ok": True}`. Second component: the `create_document` calls made. -/
def submit_contact (payload : ContactPayload) (now : Instant) (store : Store) :
    ApiResult ContactBody × List (String × ContactDoc) :=
  let doc := contactDoc payload now
  match store with
  | some (.ok _id) => (.ok { ok := true, id := some _id }, [("contact", doc)])
  | some (.error e) =>
      (.httpError 500 ("Failed to save contact: " ++ e), [("contact", doc)])
  | none => (.ok { ok := true, id := none }, [])

/-- Handler `POST /api/checkout` (`create_checkout`), on an already-validated
payload. `ts` is the clock read `int(datetime.now().timestamp())`, `now` the
clock read `datetime.now(timezone.utc)`. Builds
`session_id = f"sess_{ts}"` and
`session_url = f"/checkout/success?sid={session_id}&course={payload.courseId}"`,
best-effort persists the record (`except Exception: pass`), and always returns
`{"ok": True, "sessionId": session_id, "url": session_url}`. -/
def create_checkout (payload : CheckoutPayload) (ts : Nat) (now : Instant)
    (store : Store) : CheckoutBody × List (String × CheckoutRecord) :=
  let session_id := "sess_" ++ toString ts
  let session_url := "/checkout/success?sid=" ++ session_id ++ "&course=" ++ payload.courseId
  let record := checkoutRecord payload session_id session_url now
  let calls : List (String × CheckoutRecord) :=
    match store with
    | some _ => [("checkout", record)]
    | none => []
  ({ ok := true, sessionId := session_id, url := session_url }, calls)

/-- Handler `POST /api/analytics` (`track_event`), on an already-validated
event. Best-effort persists the record (`except Exception: pass`) and always
returns `{"ok": True}`. -/
def track_event (ev : AnalyticsEvent) (now : Instant) (store : Store) :
    AckBody × List (String × AnalyticsRecord) :=
  let record := analyticsRecord ev now
  let calls : List (String × AnalyticsRecord) :=
    match store with
    | some _ => [("analytics", record)]
    | none => []
  ({ ok := true }, calls)

/-! ## Full request pipelines (FastAPI validation, then handler) -/

/-- Full `POST /api/contact` request: pydantic validation (422 with field
errors on failure, before any handler logic), then `submit_contact`. -/
def handle_contact_request (emailOk : String → Bool) (p : ContactPayload)
    (now : Instant) (store : Store) :
    ApiResult ContactBody × List (String × ContactDoc) :=
  let errs := validate_contact emailOk p
  if errs.isEmpty then submit_contact p now store
  else (.unprocessable errs, [])

/-- Full `POST /api/checkout` request: pydantic validation and parsing (with
the `plan` default), then `create_checkout`. -/
def handle_checkout_request (raw : RawCheckout) (ts : Nat) (now : Instant)
    (store : Store) : ApiResult CheckoutBody × List (String × CheckoutRecord) :=
  let errs := validate_checkout raw
  if errs.isEmpty then
    let res := create_checkout (parse_checkout raw) ts now store
    (.ok res.1, res.2)
  else (.unprocessable errs, [])

/-- Full `POST /api/analytics` request: pydantic validation, then
`track_event`. -/
def handle_analytics_request (ev : AnalyticsEvent) (now : Instant)
    (store : Store) : ApiResult AckBody × List (String × AnalyticsRecord) :=
  let errs := validate_analytics ev
  if errs.isEmpty then
    let res := track_event ev now store
    (.ok res.1, res.2)
  else (.unprocessable errs, [])

/-! ## Diagnostics endpoint (`GET /test`) -/

/-- The `db` handle as seen by `test_database`. `name` models the
`hasattr(db, "name")` / `db.name` probe: `.ok (some s)` is an attribute with
value `s`, `.ok none` is `hasattr` false, `.error e` is a raised exception
(caught by the handler's outer `except`). `list_collection_names` models the
`db.list_collection_names()` call, which may raise (caught by the inner
`except`). -/
structure DB where
  name : Except String (Option String)
  list_collection_names : Except String (List String)

/-- Response dict of `GET /test`. `database_url` and `database_name` start as
Python `None` (`Option.none`) and are overwritten before returning. -/
structure TestResponse where
  backend : String
  database : String
  database_url : Option String
  database_name : Option String
  connection_status : String
  collections : List String
deriving DecidableEq, Repr

/-- Handler `GET /test` (`test_database`). Totality of this function is the
"never raises" contract: both probe exceptions are caught and summarized as
`str(e)[:50]` inside the `database` field, and the final two lines overwrite
`database_url` / `database_name` with the presence flags of the
`DATABASE_URL` / `DATABASE_NAME` environment variables (`dbUrlSet`,
`dbNameSet`). -/
def test_database (odb : Option DB) (dbUrlSet dbNameSet : Bool) : TestResponse :=
  let r : TestResponse :=
    match odb with
    | none =>
        { backend := "✅ Running", database := "⚠️  Available but not initialized",
          database_url := none, database_name := none,
          connection_status := "Not Connected", collections := [] }
    | some db =>
        match db.name with
        | .error e =>
            { backend := "✅ Running", database := "❌ Error: " ++ e.take 50,
              database_url := some "✅ Configured", database_name := none,
              connection_status := "Not Connected", collections := [] }
        | .ok nameAttr =>
            let nameStr := nameAttr.getD "✅ Connected"
            match db.list_collection_names with
            | .ok cols =>
                { backend := "✅ Running", database := "✅ Connected & Working",
                  database_url := some "✅ Configured", database_name := some nameStr,
                  connection_status := "Connected", collections := cols.take 10 }
            | .error e =>
                { backend := "✅ Running",
                  database := "⚠️  Connected but Error: " ++ e.take 50,
                  database_url := some "✅ Configured", database_name := some nameStr,
                  connection_status := "Connected", collections := [] }
  { r with
    database_url := some (if dbUrlSet then "✅ Set" else "❌ Not Set"),
    database_name := some (if dbNameSet then "✅ Set" else "❌ Not Set") }

/-! ## Query-string parsing (used to state the URL-encoding claim)

The handlers build URLs by f-string concatenation; to state what a consumer
recovers from such a URL we need standard query-string semantics: take the part
after the first `?`, split on `&`, and within each pair take the key before the
first `=` and the value after it (first occurrence of the key wins, as in
`urllib.parse.parse_qs(...)[k][0]`). -/

/-- Split a character list on a separator character (standard splitting: `n`
separators yield `n + 1` groups). -/
def splitOnChar (c : Char) : List Char → List (List Char)
  | [] => [[]]
  | x :: xs =>
    if x = c then [] :: splitOnChar c xs
    else
      match splitOnChar c xs with
      | [] => [[x]]
      | g :: gs => (x :: g) :: gs

/-- Characters after the first `?` of a URL (empty when there is none). -/
def queryPart (url : String) : List Char :=
  (url.data.dropWhile (fun ch => ch ≠ '?')).drop 1

/-- Key–value pairs of a URL's query string. -/
def queryParams (url : String) : List (String × String) :=
  (splitOnChar '&' (queryPart url)).map fun kv =>
    (String.mk (kv.takeWhile (fun ch => ch ≠ '=')),
     String.mk ((kv.dropWhile (fun ch => ch ≠ '=')).drop 1))

/-- Value of the first occurrence of `key` in the URL's query string. -/
def queryParam (url key : String) : Option String :=
  ((queryParams url).find? (fun p => p.1 = key)).map (fun p => p.2)

/-- Sample concrete email validator (accepts strings containing `@`), used
only to instantiate the `emailOk` parameter in concrete evaluations. -/
def emailOkSample (s : String) : Bool := s.data.contains '@'

/-! ## Helper lemmas -/

/-- String append with a non-empty left part is non-empty. -/
theorem append_ne_empty_of_left (s t : String) (h : 0 < s.length) : s ++ t ≠ "" := by
  intro hEq
  have h2 := congrArg String.length hEq
  rw [String.length_append, String.length_empty] at h2
  omega

/-- Truncation `str(e)[:50]` keeps at most 50 characters. -/
theorem take_fifty_length_le (s : String) : (s.take 50).length ≤ 50 := by
  rw [String.take_eq, String.length_mk, List.length_take]
  omega

/-! ## Claims about the checkout endpoint -/

/-- C2: for every valid checkout payload (`courseId` of length ≥ 1), the
checkout handler returns `ok = true` with a non-empty `sessionId` and a
non-empty `url`, for every store situation (`store` ranges over: absent, write
succeeds, write raises). -/
theorem checkout_always_ok (raw : RawCheckout) (ts : Nat) (now : Instant)
    (store : Store) (hvalid : 1 ≤ raw.courseId.length) :
    (handle_checkout_request raw ts now store).1
      = .ok { ok := true,
              sessionId := "sess_" ++ toString ts,
              url := "/checkout/success?sid=" ++ ("sess_" ++ toString ts)
                       ++ "&course=" ++ raw.courseId }
    ∧ "sess_" ++ toString ts ≠ ""
    ∧ "/checkout/success?sid=" ++ ("sess_" ++ toString ts)
        ++ "&course=" ++ raw.courseId ≠ "" := by
  refine ⟨?_, ?_, ?_⟩
  · have herrs : validate_checkout raw = [] := by
      unfold validate_checkout
      simp only [if_neg (by omega : ¬ raw.courseId.length < 1)]
    simp [handle_checkout_request, herrs, create_checkout, parse_checkout]
  · exact append_ne_empty_of_left _ _ (by decide)
  · apply append_ne_empty_of_left
    rw [String.length_append, String.length_append]
    have h22 : (0:Nat) < ("/checkout/success?sid=" : String).length := by decide
    omega

/-- C2 witness: concrete valid payload, store absent. -/
theorem checkout_always_ok_witness :
    (handle_checkout_request ⟨"c1", JsonOpt.val "pro"⟩ 5 0 none).1
      = .ok { ok := true,
              sessionId := "sess_" ++ toString 5,
              url := "/checkout/success?sid=" ++ ("sess_" ++ toString 5)
                       ++ "&course=" ++ "c1" } :=
  (checkout_always_ok ⟨"c1", JsonOpt.val "pro"⟩ 5 0 none (by decide)).1

/-- C5: for every valid checkout payload the session id is `"sess_"` followed
by the decimal digits of the Unix timestamp second (`toString ts` is the
decimal rendering of `ts : Nat`), the url is
`"/checkout/success?sid=<sessionId>&course=<courseId>"`, and for
`courseId = "c1"` the body is exactly `ok = true` with those fields. -/
theorem checkout_session_format (p : CheckoutPayload) (ts : Nat) (now : Instant)
    (store : Store) (hvalid : 1 ≤ p.courseId.length) :
    (create_checkout p ts now store).1.sessionId = "sess_" ++ toString ts
    ∧ (create_checkout p ts now store).1.url
        = "/checkout/success?sid=" ++ ("sess_" ++ toString ts)
            ++ "&course=" ++ p.courseId
    ∧ (p.courseId = "c1" →
        (create_checkout p ts now store).1
          = { ok := true, sessionId := "sess_" ++ toString ts,
              url := "/checkout/success?sid=" ++ ("sess_" ++ toString ts)
                       ++ "&course=" ++ "c1" }) := by
  refine ⟨rfl, rfl, fun h => ?_⟩
  simp [create_checkout, h]

/-- C5 witness: a concrete timestamp and the course id `"c1"`. -/
theorem checkout_session_format_witness :
    (create_checkout ⟨"c1", some "standard"⟩ 1700000000 0 none).1.sessionId
      = "sess_" ++ toString 1700000000 :=
  (checkout_session_format ⟨"c1", some "standard"⟩ 1700000000 0 none (by decide)).1

/-- C8: when the checkout body omits the `plan` field, the parsed payload
carries `plan = "standard"`, and so does every record the handler passes to
`create_document`. -/
theorem checkout_plan_defaults_standard (raw : RawCheckout) (ts : Nat)
    (now : Instant) (store : Store) (hplan : raw.plan = .absent)
    (hvalid : 1 ≤ raw.courseId.length) :
    (parse_checkout raw).plan = some "standard"
    ∧ ∀ r ∈ (create_checkout (parse_checkout raw) ts now store).2,
        r.2.plan = some "standard" := by
  have hparsed : (parse_checkout raw).plan = some "standard" := by
    simp [parse_checkout, hplan]
  refine ⟨hparsed, fun r hr => ?_⟩
  match store with
  | none => simp [create_checkout] at hr
  | some o =>
    simp [create_checkout] at hr
    rw [hr]
    simpa [checkoutRecord] using hparsed

/-- C8 witness: concrete body with `plan` absent, store configured. -/
theorem checkout_plan_defaults_standard_witness :
    (parse_checkout ⟨"c1", JsonOpt.absent⟩).plan = some "standard" :=
  (checkout_plan_defaults_standard ⟨"c1", JsonOpt.absent⟩ 0 0 (some (.ok "x"))
    rfl (by decide)).1

/-- C9: the checkout session identifier is a function of the second-granularity
timestamp alone: two invocations whose clock reads truncate to the same integer
second produce identical session ids, whatever their payloads, stores, and
other clock reads. -/
theorem session_id_same_second_collision (ts : Nat) (p q : CheckoutPayload)
    (n m : Instant) (s t : Store) :
    (create_checkout p ts n s).1.sessionId = (create_checkout q ts m t).1.sessionId := rfl

/-- C10: the checkout url embeds `courseId` verbatim by string concatenation
with no URL-encoding; for the valid course id `"a&b"` a standard query-string
parse of the resulting url yields `"a"` for the `course` parameter, which is
not the original course id. -/
theorem checkout_url_verbatim_no_encoding :
    (∀ (p : CheckoutPayload) (ts : Nat) (now : Instant) (store : Store),
        (create_checkout p ts now store).1.url
          = "/checkout/success?sid=" ++ ("sess_" ++ toString ts)
              ++ "&course=" ++ p.courseId)
    ∧ 1 ≤ ("a&b" : String).length
    ∧ queryParam (create_checkout ⟨"a&b", some "standard"⟩ 0 0 none).1.url "course"
        = some "a"
    ∧ ("a" : String) ≠ "a&b" := by
  refine ⟨fun p ts now store => rfl, by decide, by decide, by decide⟩

/-! ## Claims about the contact endpoint -/

/-- Sixty-character error message used to exercise the handling of long store
errors. -/
def longErr : String := "012345678901234567890123456789012345678901234567890123456789"

set_option maxRecDepth 8192 in
/-- C1 counterexample: with a valid payload and a store write raising a
60-character error, the contact handler raises `HTTPException(500, ...)` whose
detail carries the FULL underlying error message — it is not the ≤50-character
truncated form used elsewhere in this service, contrary to the claim's
"truncated form of the underlying error message". -/
theorem contact_error_not_truncated_cex :
    (submit_contact ⟨"Jo", "jo@x.com", "Hi there"⟩ 0 (some (.error longErr))).1
      = .httpError 500 ("Failed to save contact: " ++ longErr)
    ∧ longErr.length = 60
    ∧ "Failed to save contact: " ++ longErr
        ≠ "Failed to save contact: " ++ longErr.take 50 := by
  refine ⟨rfl, by decide, by decide⟩

/-- C1 (amended): for every valid contact payload, when the store is configured
and the write raises with message `e`, the handler responds with HTTP 500 whose
detail carries the full underlying error message, `"Failed to save contact: " ++ e`
— the failure is not swallowed (and not truncated). -/
theorem contact_store_failure_surfaced (emailOk : String → Bool)
    (p : ContactPayload) (now : Instant) (e : String)
    (hvalid : validate_contact emailOk p = []) :
    (handle_contact_request emailOk p now (some (.error e))).1
      = .httpError 500 ("Failed to save contact: " ++ e) := by
  simp [handle_contact_request, hvalid, submit_contact]

/-- C1 witness: concrete valid payload and raising store. -/
theorem contact_store_failure_surfaced_witness :
    (handle_contact_request emailOkSample ⟨"Jo", "jo@x.com", "Hi there"⟩ 0
        (some (.error "boom"))).1
      = .httpError 500 ("Failed to save contact: " ++ "boom") :=
  contact_store_failure_surfaced emailOkSample ⟨"Jo", "jo@x.com", "Hi there"⟩ 0
    "boom" (by decide)

/-- C3: every contact body with `name` shorter than 2 or longer than 120
characters, or an email the validator rejects, or `message` length outside
[4, 4000], is rejected with a 422 carrying the offending field names, and no
`create_document` call occurs (the call list is empty). -/
theorem contact_invalid_rejected_before_store (emailOk : String → Bool)
    (p : ContactPayload) (now : Instant) (store : Store)
    (hbad : p.name.length < 2 ∨ 120 < p.name.length
            ∨ emailOk p.email = false
            ∨ p.message.length < 4 ∨ 4000 < p.message.length) :
    handle_contact_request emailOk p now store
      = (.unprocessable (validate_contact emailOk p), [])
    ∧ validate_contact emailOk p ≠ [] := by
  have hne : validate_contact emailOk p ≠ [] := by
    unfold validate_contact
    rcases hbad with h | h | h | h | h
    · rw [if_pos (Or.inl h)]; simp
    · rw [if_pos (Or.inr h)]; simp
    · rw [h]; simp
    · rw [if_pos (Or.inl h)]; simp
    · rw [if_pos (Or.inr h)]; simp
  refine ⟨?_, hne⟩
  unfold handle_contact_request
  rw [if_neg (by simpa using hne)]

/-- C3 witness: the end-to-end invalid body `{"name":"J","email":"bad","message":"hi"}`
is rejected with all three field errors and an empty call list. -/
theorem contact_invalid_rejected_before_store_witness :
    handle_contact_request emailOkSample ⟨"J", "bad", "hi"⟩ 0 (some (.ok "x"))
      = (.unprocessable (validate_contact emailOkSample ⟨"J", "bad", "hi"⟩), [])
    ∧ validate_contact emailOkSample ⟨"J", "bad", "hi"⟩ ≠ [] :=
  contact_invalid_rejected_before_store emailOkSample ⟨"J", "bad", "hi"⟩ 0
    (some (.ok "x")) (Or.inl (by decide))

/-! ## Claims about the analytics endpoint -/

/-- C7: for every valid analytics event (name of 2–64 characters), the handler
responds exactly `{"ok": true}` for every store situation, and the record it
builds for persistence is tagged `"analytics"` and carries the UTC `received_at`
instant. -/
theorem analytics_always_ok (ev : AnalyticsEvent) (now : Instant) (store : Store)
    (hlo : 2 ≤ ev.event.length) (hhi : ev.event.length ≤ 64) :
    (handle_analytics_request ev now store).1 = .ok { ok := true }
    ∧ (analyticsRecord ev now)._type = "analytics"
    ∧ (analyticsRecord ev now).received_at = now
    ∧ ∀ r ∈ (handle_analytics_request ev now store).2, r.2 = analyticsRecord ev now := by
  have herrs : validate_analytics ev = [] := by
    unfold validate_analytics
    rw [if_neg (by omega)]
  refine ⟨?_, rfl, rfl, fun r hr => ?_⟩
  · simp [handle_analytics_request, herrs, track_event]
  · match store with
    | none => simp [handle_analytics_request, herrs, track_event] at hr
    | some o =>
      simp [handle_analytics_request, herrs, track_event] at hr
      rw [hr]

/-- C7 witness: the end-to-end event `{"event":"page_view"}` with a raising
store. -/
theorem analytics_always_ok_witness :
    (handle_analytics_request ⟨"page_view", none, none⟩ 7 (some (.error "down"))).1
      = .ok { ok := true } :=
  (analytics_always_ok ⟨"page_view", none, none⟩ 7 (some (.error "down"))
    (by decide) (by decide)).1

/-! ## Claims about the diagnostics endpoint -/

/-- C4: `GET /test` always answers normally (the embedding is a total function
into `TestResponse`, mirroring that every probe exception is caught) with the
backend-up marker, and each error probing the store is summarized inside the
`database` field as `str(e)[:50]` — at most 50 characters of the underlying
error — never propagated as an HTTP error. -/
theorem test_database_catches_and_truncates (odb : Option DB) (u n : Bool) :
    (test_database odb u n).backend = "✅ Running"
    ∧ (∀ db e, odb = some db → db.name = .error e →
        (test_database odb u n).database = "❌ Error: " ++ e.take 50
          ∧ (e.take 50).length ≤ 50)
    ∧ (∀ db nm e, odb = some db → db.name = .ok nm →
        db.list_collection_names = .error e →
        (test_database odb u n).database = "⚠️  Connected but Error: " ++ e.take 50
          ∧ (e.take 50).length ≤ 50) := by
  refine ⟨?_, ?_, ?_⟩
  · rcases odb with _ | db
    · rfl
    · cases hn : db.name with
      | error e => simp [test_database, hn]
      | ok nm =>
        cases hc : db.list_collection_names with
        | error e => simp [test_database, hn, hc]
        | ok cols => simp [test_database, hn, hc]
  · intro db e hdb hname
    subst hdb
    refine ⟨?_, take_fifty_length_le e⟩
    simp [test_database, hname]
  · intro db nm e hdb hname hcols
    subst hdb
    refine ⟨?_, take_fifty_length_le e⟩
    simp [test_database, hname, hcols]

/-- C4 witness: a store handle whose name access raises `"boom"`. -/
theorem test_database_catches_and_truncates_witness :
    (test_database (some { name := .error "boom", list_collection_names := .ok [] })
        true true).database
      = "❌ Error: " ++ ("boom" : String).take 50 :=
  ((test_database_catches_and_truncates
      (some { name := .error "boom", list_collection_names := .ok [] }) true true).2.1
    { name := .error "boom", list_collection_names := .ok [] } "boom" rfl rfl).1

/-- C6 counterexample: with an available store whose name resolves to `"mydb"`
(and collections listable, both env variables set), the final response's
`database_name` is the env presence flag `"✅ Set"`, not the store's name: the
assignment of `db.name` is unconditionally overwritten before returning. -/
theorem test_database_name_clobbered_cex :
    (test_database
        (some { name := .ok (some "mydb"), list_collection_names := .ok ["contact"] })
        true true).database_name = some "✅ Set"
    ∧ (test_database
        (some { name := .ok (some "mydb"), list_collection_names := .ok ["contact"] })
        true true).database_name ≠ some "mydb" := by
  exact ⟨rfl, by decide⟩

/-- C6 (amended): the diagnostics response never reports the store's name: its
`database_name` (and `database_url`) are unconditionally overwritten with the
presence flags of the two configuration environment variables; alongside, when
the store is available, its name resolvable and its collections listable, the
response reports the connected tri-state and up to 10 collection names. -/
theorem test_database_env_flags (db : DB) (u n : Bool) (nm : Option String)
    (cols : List String) (hname : db.name = .ok nm)
    (hcols : db.list_collection_names = .ok cols) :
    (test_database (some db) u n).database_name
      = some (if n then "✅ Set" else "❌ Not Set")
    ∧ (test_database (some db) u n).database_url
      = some (if u then "✅ Set" else "❌ Not Set")
    ∧ (test_database (some db) u n).database = "✅ Connected & Working"
    ∧ (test_database (some db) u n).collections = cols.take 10
    ∧ (test_database (some db) u n).connection_status = "Connected" := by
  refine ⟨?_, ?_, ?_, ?_, ?_⟩ <;> simp [test_database, hname, hcols]

/-- C6 witness: a resolvable name `"mydb"`, listable collections, and
`DATABASE_NAME` set. -/
theorem test_database_env_flags_witness :
    (test_database (some { name := .ok (some "mydb"), list_collection_names := .ok ["a"] })
        false true).database_name = some "✅ Set" :=
  (test_database_env_flags
      { name := .ok (some "mydb"), list_collection_names := .ok ["a"] }
      false true (some "mydb") ["a"] rfl rfl).1
